import Mathlib

/-!
Verification of the resource-lifecycle orchestrator of the mcp-cognito-Oauth
repository (sdk-deploy/gateway_manager.py and sdk-deploy/cleanup.py).

The remote AWS control plane is modelled as an explicit environment record:
each remote call site of the Python code corresponds to one field, and a
polling loop consults a function from the poll index to the response observed
at that poll.  A remote call either returns a structured record or raises an
exception carried as its message string, matching the fact that the Python
code classifies exceptions solely by substring tests on str(e).

Wall-clock time is modelled discretely: fetches are instantaneous and each
time.sleep(n) advances the clock by n, so the loop guard
time.time() - start_time < max_wait becomes t < maxWait with t the sum of
sleeps performed so far.
-/

/-- Python list containment helper: true when pat occurs at the head. -/
def leadsWith : List Char → List Char → Bool
  | [], _ => true
  | _ :: _, [] => false
  | p :: ps, c :: cs => p = c && leadsWith ps cs

/-- Python list containment helper: true when pat occurs anywhere. -/
def subListAt (pat : List Char) : List Char → Bool
  | [] => leadsWith pat []
  | c :: rest => leadsWith pat (c :: rest) || subListAt pat rest

/-- The Python substring test pat in s, used on exception messages. -/
def strContains (s pat : String) : Bool := subListAt pat.data s.data

/-- The classification test the source applies to every caught exception:
the literal Python check is ResourceNotFound in str(e). -/
def notFoundIn (m : String) : Bool := strContains m "ResourceNotFound"

/-- Response of one remote get/list call as observed by the code: either a
normal structured response whose optional status field is inspected, or a
raised exception carried by its message string. -/
inductive ApiRes
  | ok (status : Option String)
  | exn (msg : String)
deriving DecidableEq

/-- Result of one activation wait loop: normal return after a number of
fetches, an exception propagated out of the loop, or budget exhaustion
(the polls field counts the status fetches performed). -/
inductive WaitOutcome
  | success (polls : Nat)
  | raised (msg : String)
  | timeout (polls : Nat)
deriving DecidableEq

/-- Translation of _wait_for_gateway_active and _wait_for_target_active
(gateway_manager.py lines 177-226), which differ only in the message of the
exception raised on FAILED status; failMsg is that message.  fetch k is the
response of the k-th get call; t is elapsed time, mw the max_wait budget.
On FAILED the code raises inside the try block, so the raised message passes
through the same ResourceNotFound substring classification as every other
exception before it can propagate. -/
def wait_for_active (failMsg : String) (fetch : Nat → ApiRes) (mw t k : Nat) :
    WaitOutcome :=
  if _h : t < mw then
    match fetch k with
    | ApiRes.ok st =>
      if st = some "ACTIVE" then WaitOutcome.success (k + 1)
      else if st = some "FAILED" then
        if notFoundIn failMsg then wait_for_active failMsg fetch mw (t + 5) (k + 1)
        else WaitOutcome.raised failMsg
      else wait_for_active failMsg fetch mw (t + 10) (k + 1)
    | ApiRes.exn m =>
      if notFoundIn m then wait_for_active failMsg fetch mw (t + 5) (k + 1)
      else WaitOutcome.raised m
  else WaitOutcome.timeout k
termination_by mw - t
decreasing_by all_goals omega

/-- Translation of _wait_for_gateway_deleted and _wait_for_target_deleted
(gateway_manager.py lines 228-258): a successful get means the resource
still exists (sleep 10 and refetch); an exception whose message holds
ResourceNotFound is the success terminal; any other exception propagates;
an exhausted budget raises the timeout message.  The second component is
the list of responses observed, in order. -/
def wait_for_deleted (timeoutMsg : String) (fetch : Nat → ApiRes) (mw t k : Nat) :
    Except String Unit × List ApiRes :=
  if _h : t < mw then
    match fetch k with
    | ApiRes.ok st =>
      let r := wait_for_deleted timeoutMsg fetch mw (t + 10) (k + 1)
      (r.1, ApiRes.ok st :: r.2)
    | ApiRes.exn m =>
      if notFoundIn m then (Except.ok (), [ApiRes.exn m])
      else (Except.error m, [ApiRes.exn m])
  else (Except.error timeoutMsg, [])
termination_by mw - t
decreasing_by all_goals omega

theorem wa_stop (failMsg : String) (fetch : Nat → ApiRes) (mw t k : Nat)
    (h : ¬ t < mw) :
    wait_for_active failMsg fetch mw t k = WaitOutcome.timeout k := by
  unfold wait_for_active
  simp [h]

theorem wa_ok (failMsg : String) (fetch : Nat → ApiRes) (mw t k : Nat)
    (st : Option String) (h : t < mw) (hf : fetch k = ApiRes.ok st) :
    wait_for_active failMsg fetch mw t k =
      (if st = some "ACTIVE" then WaitOutcome.success (k + 1)
       else if st = some "FAILED" then
         (if notFoundIn failMsg then wait_for_active failMsg fetch mw (t + 5) (k + 1)
          else WaitOutcome.raised failMsg)
       else wait_for_active failMsg fetch mw (t + 10) (k + 1)) := by
  conv_lhs => unfold wait_for_active
  simp [h, hf]

theorem wa_exn (failMsg : String) (fetch : Nat → ApiRes) (mw t k : Nat)
    (m : String) (h : t < mw) (hf : fetch k = ApiRes.exn m) :
    wait_for_active failMsg fetch mw t k =
      (if notFoundIn m then wait_for_active failMsg fetch mw (t + 5) (k + 1)
       else WaitOutcome.raised m) := by
  conv_lhs => unfold wait_for_active
  simp [h, hf]

theorem wd_stop (timeoutMsg : String) (fetch : Nat → ApiRes) (mw t k : Nat)
    (h : ¬ t < mw) :
    wait_for_deleted timeoutMsg fetch mw t k = (Except.error timeoutMsg, []) := by
  unfold wait_for_deleted
  simp [h]

theorem wd_found (timeoutMsg : String) (fetch : Nat → ApiRes) (mw t k : Nat)
    (st : Option String) (h : t < mw) (hf : fetch k = ApiRes.ok st) :
    wait_for_deleted timeoutMsg fetch mw t k =
      ((wait_for_deleted timeoutMsg fetch mw (t + 10) (k + 1)).1,
        ApiRes.ok st :: (wait_for_deleted timeoutMsg fetch mw (t + 10) (k + 1)).2) := by
  conv_lhs => unfold wait_for_deleted
  simp [h, hf]

theorem wd_exn (timeoutMsg : String) (fetch : Nat → ApiRes) (mw t k : Nat)
    (m : String) (h : t < mw) (hf : fetch k = ApiRes.exn m) :
    wait_for_deleted timeoutMsg fetch mw t k =
      (if notFoundIn m then (Except.ok (), [ApiRes.exn m])
       else (Except.error m, [ApiRes.exn m])) := by
  conv_lhs => unfold wait_for_deleted
  simp [h, hf]

/-- Message of the exception raised when the gateway status polls FAILED
(gateway_manager.py line 188). -/
def gatewayActivateFailMsg (gid : String) : String :=
  "Gateway " ++ gid ++ " failed to activate"

/-- Message of the exception raised when the target status polls FAILED
(gateway_manager.py line 215). -/
def targetActivateFailMsg (tid : String) : String :=
  "Target " ++ tid ++ " failed to activate"

/-- Message of the TimeoutError of _wait_for_gateway_active (line 199). -/
def gatewayActiveTimeoutMsg (gid : String) (mw : Nat) : String :=
  "Gateway " ++ gid ++ " did not become active within " ++ toString mw ++ " seconds"

/-- Message of the TimeoutError of _wait_for_gateway_deleted (line 242). -/
def gatewayDeletedTimeoutMsg (gid : String) (mw : Nat) : String :=
  "Gateway " ++ gid ++ " was not deleted within " ++ toString mw ++ " seconds"

/-- Message of the TimeoutError of _wait_for_target_deleted (line 258). -/
def targetDeletedTimeoutMsg (tid : String) (mw : Nat) : String :=
  "Target " ++ tid ++ " was not deleted within " ++ toString mw ++ " seconds"

/-- _wait_for_gateway_active with its default budget max_wait = 300. -/
def wait_for_gateway_active (gid : String) (fetch : Nat → ApiRes) : WaitOutcome :=
  wait_for_active (gatewayActivateFailMsg gid) fetch 300 0 0

/-- _wait_for_target_active with its default budget max_wait = 300. -/
def wait_for_target_active (tid : String) (fetch : Nat → ApiRes) : WaitOutcome :=
  wait_for_active (targetActivateFailMsg tid) fetch 300 0 0

/-- _wait_for_gateway_deleted with its default budget max_wait = 300. -/
def wait_for_gateway_deleted (gid : String) (fetch : Nat → ApiRes) :
    Except String Unit × List ApiRes :=
  wait_for_deleted (gatewayDeletedTimeoutMsg gid 300) fetch 300 0 0

/-- _wait_for_target_deleted with its default budget max_wait = 300. -/
def wait_for_target_deleted (tid : String) (fetch : Nat → ApiRes) :
    Except String Unit × List ApiRes :=
  wait_for_deleted (targetDeletedTimeoutMsg tid 300) fetch 300 0 0

/-- GatewayConfig dataclass (gateway_manager.py lines 24-33). -/
structure GatewayConfig where
  gateway_name : String
  description : String
  cognito_user_pool_id : String
  cognito_client_id : String
  cognito_domain : String
  lambda_function_arn : String
  region : String
deriving DecidableEq

/-- The customJwt record of the authorizerConfiguration argument built by
create_gateway (gateway_manager.py lines 64-71). -/
structure CustomJwtConfig where
  authorizerName : String
  tokenSource : String
  issuer : String
  audience : List String
deriving DecidableEq

/-- The full keyword-argument record of the create_gateway control-plane
call (gateway_manager.py lines 59-73). -/
structure CreateGatewayRequest where
  name : String
  description : String
  protocolType : String
  authorizerType : String
  customJwt : CustomJwtConfig
  roleArn : String
deriving DecidableEq

/-- The request record create_gateway sends, exactly as the source builds
it: the issuer embeds the region and user pool id of the config, the
audience is the singleton client id, the role is derived from the account. -/
def buildCreateGatewayRequest (config : GatewayConfig) (accountId : String) :
    CreateGatewayRequest :=
  { name := config.gateway_name
    description := config.description
    protocolType := "MCP"
    authorizerType := "CUSTOM_JWT"
    customJwt :=
      { authorizerName := config.gateway_name ++ "-authorizer"
        tokenSource := "authorization"
        issuer := "https://cognito-idp." ++ config.region ++ ".amazonaws.com/"
          ++ config.cognito_user_pool_id
        audience := [config.cognito_client_id] }
    roleArn := "arn:aws:iam::" ++ accountId ++ ":role/BedrockAgentCoreGatewayRole" }

/-- Fields of the create_gateway control-plane response that the source
reads (gatewayId, gatewayArn required lookups; gatewayUrl via .get). -/
structure CreateGatewayResponse where
  gatewayId : String
  gatewayArn : String
  gatewayUrl : Option String
deriving DecidableEq

/-- The record create_gateway returns on success (lines 81-86). -/
structure GatewayHandle where
  gateway_id : String
  gateway_arn : String
  gateway_url : Option String
  status : String
deriving DecidableEq

/-- Environment of one create_gateway invocation: the caller-identity
lookup, the create call (as a function of the request actually sent), and
the get_gateway responses consulted by the activation wait, indexed by
poll number. -/
structure CreateEnv where
  accountIdRes : Except String String
  createRes : CreateGatewayRequest → Except String CreateGatewayResponse
  getGatewayRes : Nat → ApiRes

/-- Translation of BedrockAgentCoreGatewayManager.create_gateway
(gateway_manager.py lines 53-90): resolve the account id, issue the create
call with the derived authorizer configuration, block on the activation
wait, and return the handle with the literal status marker created; every
exception is re-raised to the caller. -/
def create_gateway (env : CreateEnv) (config : GatewayConfig) :
    Except String GatewayHandle :=
  match env.accountIdRes with
  | Except.error m => Except.error m
  | Except.ok acct =>
    match env.createRes (buildCreateGatewayRequest config acct) with
    | Except.error m => Except.error m
    | Except.ok resp =>
      match wait_for_gateway_active resp.gatewayId env.getGatewayRes with
      | WaitOutcome.success _ =>
        Except.ok
          { gateway_id := resp.gatewayId
            gateway_arn := resp.gatewayArn
            gateway_url := resp.gatewayUrl
            status := "created" }
      | WaitOutcome.raised m => Except.error m
      | WaitOutcome.timeout _ =>
        Except.error (gatewayActiveTimeoutMsg resp.gatewayId 300)

/-- One control-plane call issued by delete_gateway, in issue order: the
target listing, a target delete, a target get observed by the target
deletion wait (with its response), the parent gateway delete, and a
gateway get observed by the gateway deletion wait. -/
inductive Ev
  | listTargets
  | delTarget (tid : String)
  | getTarget (tid : String) (r : ApiRes)
  | delGateway
  | getGateway (r : ApiRes)
deriving DecidableEq

/-- Environment of one delete_gateway invocation: the gateway id argument,
the response of the initial target listing (the targetId fields of the
targetSummaries, or a raised exception), the response of each target
delete call, the per-poll responses of each target deletion wait, the
response of the parent gateway delete call, and the per-poll responses of
the gateway deletion wait. -/
structure DelEnv where
  gatewayId : String
  listTargetsRes : Except String (List String)
  delTargetRes : String → Except String Unit
  getTargetRes : String → Nat → ApiRes
  delGatewayRes : Except String Unit
  getGatewayRes : Nat → ApiRes

/-- The for-loop of delete_gateway (gateway_manager.py lines 157-164):
delete each listed target in order and block on its deletion wait; the
first exception propagates and stops the loop.  Returns the loop outcome
and the calls issued. -/
def deleteTargetsRun (env : DelEnv) : List String → Except String Unit × List Ev
  | [] => (Except.ok (), [])
  | tid :: rest =>
    match env.delTargetRes tid with
    | Except.error m => (Except.error m, [Ev.delTarget tid])
    | Except.ok _ =>
      let w := wait_for_target_deleted tid (env.getTargetRes tid)
      match w.1 with
      | Except.error m =>
        (Except.error m, Ev.delTarget tid :: w.2.map (Ev.getTarget tid))
      | Except.ok _ =>
        let r := deleteTargetsRun env rest
        (r.1, Ev.delTarget tid :: (w.2.map (Ev.getTarget tid) ++ r.2))

/-- Translation of BedrockAgentCoreGatewayManager.delete_gateway
(gateway_manager.py lines 150-175): list the targets, delete each and wait
for its deletion, then delete the gateway and wait for its disappearance;
the except clause only logs and re-raises, so every exception propagates.
Returns the status string of the success record together with the ordered
list of control-plane calls issued. -/
def delete_gateway (env : DelEnv) : Except String String × List Ev :=
  match env.listTargetsRes with
  | Except.error m => (Except.error m, [Ev.listTargets])
  | Except.ok ts =>
    let r := deleteTargetsRun env ts
    match r.1 with
    | Except.error m => (Except.error m, Ev.listTargets :: r.2)
    | Except.ok _ =>
      match env.delGatewayRes with
      | Except.error m =>
        (Except.error m, Ev.listTargets :: (r.2 ++ [Ev.delGateway]))
      | Except.ok _ =>
        let w := wait_for_gateway_deleted env.gatewayId env.getGatewayRes
        match w.1 with
        | Except.error m =>
          (Except.error m,
            Ev.listTargets :: (r.2 ++ Ev.delGateway :: w.2.map Ev.getGateway))
        | Except.ok _ =>
          (Except.ok "deleted",
            Ev.listTargets :: (r.2 ++ Ev.delGateway :: w.2.map Ev.getGateway))

/-- One gatewaySummaries entry as read by cleanup.py: gatewayId is a
required lookup, gatewayName is read with .get and defaults to Unknown. -/
structure GatewaySummary where
  gatewayId : String
  gatewayName : Option String
deriving DecidableEq

/-- The Python str.lower() call applied to resource names (which are
ASCII), written as a character map so that it evaluates. -/
def strLower (s : String) : String := String.mk (s.data.map Char.toLower)

/-- The name heuristic of cleanup_gateways (cleanup.py line 96): the
lowercased name holds mcp or bedrock as a substring. -/
def isOurGateway (name : String) : Bool :=
  strContains (strLower name) "mcp" || strContains (strLower name) "bedrock"

/-- One outcome record appended by cleanup_gateways: the per-gateway
records carry the id and name, the sweep-level listing-failure record
carries neither (cleanup.py lines 101-121). -/
structure CleanupRecord where
  gateway_id : Option String
  gateway_name : Option String
  status : String
  error : Option String
deriving DecidableEq

/-- The records contributed by one listed gateway in cleanup_gateways: a
gateway failing the name heuristic, or whose confirmation is declined with
the force flag unset, contributes nothing; otherwise the deletion is
attempted and exactly one deleted or error record is appended. -/
def cleanupGatewayRecord (deleteRes : String → Except String Unit)
    (confirm : String → Bool) (force : Bool) (gw : GatewaySummary) :
    List CleanupRecord :=
  let name := gw.gatewayName.getD "Unknown"
  if isOurGateway name then
    if force || confirm gw.gatewayId then
      match deleteRes gw.gatewayId with
      | Except.ok _ =>
        [{ gateway_id := some gw.gatewayId, gateway_name := some name
           status := "deleted", error := none }]
      | Except.error m =>
        [{ gateway_id := some gw.gatewayId, gateway_name := some name
           status := "error"
           error := some ("Failed to delete gateway " ++ gw.gatewayId ++ ": " ++ m) }]
    else []
  else []

/-- Translation of ResourceCleanup.cleanup_gateways (cleanup.py lines
84-123): list the gateways and process each in order; a failure of the
listing itself degrades to a single error record; every per-gateway
exception is caught and recorded, so the function always returns its
accumulated record list and never raises. -/
def cleanup_gateways (listRes : Except String (List GatewaySummary))
    (deleteRes : String → Except String Unit)
    (confirm : String → Bool) (force : Bool) : List CleanupRecord :=
  match listRes with
  | Except.error m =>
    [{ gateway_id := none, gateway_name := none, status := "error"
       error := some ("Failed to list gateways: " ++ m) }]
  | Except.ok gws => gws.flatMap (cleanupGatewayRecord deleteRes confirm force)

/-- Environment of one cleanup_s3_data invocation: the bucket listing (the
Name fields), the KeyCount probe issued by _bucket_has_mcp_data for a
bucket, the full listing of object keys under the mcp-data/ Prefix for a
bucket, and the response of a batch delete of the given keys. -/
structure S3Env where
  listBucketsRes : Except String (List String)
  probeRes : String → Except String Nat
  listObjectsRes : String → Except String (List String)
  deleteObjectsRes : String → List String → Except String Unit

/-- One outcome record appended by cleanup_s3_data (cleanup.py lines
156-176): a cleaned record carries the object count, an error record the
message; the sweep-level listing-failure record carries no bucket name. -/
structure S3Record where
  bucket_name : Option String
  objects_deleted : Option Nat
  status : String
  error : Option String
deriving DecidableEq

/-- Translation of ResourceCleanup._bucket_has_mcp_data (cleanup.py lines
222-232): probe the bucket with MaxKeys 1 and test KeyCount greater than
zero; any exception yields false. -/
def bucket_has_mcp_data (env : S3Env) (b : String) : Bool :=
  match env.probeRes b with
  | Except.ok n => decide (0 < n)
  | Except.error _ => false

/-- The bucket selection heuristic of cleanup_s3_data (cleanup.py line
137): the lowercased name holds mcp, or the probe finds data. -/
def s3BucketSelected (env : S3Env) (b : String) : Bool :=
  strContains (strLower b) "mcp" || bucket_has_mcp_data env b

/-- The records and batch-delete calls contributed by one listed bucket in
cleanup_s3_data (cleanup.py lines 133-169): an unselected bucket is never
inspected; for a selected bucket the object keys under the mcp-data/
Prefix are listed and, only when at least one is present, one batch delete
is issued and one cleaned record appended; an exception from the listing
or the delete is swallowed when its message holds NoSuchBucket and is
recorded as one error record otherwise. -/
def cleanupBucket (env : S3Env) (b : String) :
    List S3Record × List (String × List String) :=
  if s3BucketSelected env b then
    match env.listObjectsRes b with
    | Except.error m =>
      if strContains m "NoSuchBucket" then ([], [])
      else
        ([{ bucket_name := some b, objects_deleted := none
            status := "error", error := some m }], [])
    | Except.ok keys =>
      if keys.isEmpty then ([], [])
      else
        match env.deleteObjectsRes b keys with
        | Except.ok _ =>
          ([{ bucket_name := some b, objects_deleted := some keys.length
              status := "cleaned", error := none }], [(b, keys)])
        | Except.error m =>
          if strContains m "NoSuchBucket" then ([], [(b, keys)])
          else
            ([{ bucket_name := some b, objects_deleted := none
                status := "error", error := some m }], [(b, keys)])
  else ([], [])

/-- Translation of ResourceCleanup.cleanup_s3_data (cleanup.py lines
125-178): list the buckets and process each in order; a failure of the
bucket listing degrades to a single error record.  Returns the record list
together with the batch-delete calls issued. -/
def cleanup_s3_data (env : S3Env) :
    List S3Record × List (String × List String) :=
  match env.listBucketsRes with
  | Except.error m =>
    ([{ bucket_name := none, objects_deleted := none, status := "error"
        error := some ("Failed to list S3 buckets: " ++ m) }], [])
  | Except.ok bs =>
    (bs.flatMap (fun b => (cleanupBucket env b).1),
      bs.flatMap (fun b => (cleanupBucket env b).2))

/-- Normalization replacing every normal response whose status is neither
ACTIVE nor FAILED (the status field may also be absent) by a response with
status CREATING, leaving terminal statuses and exceptions unchanged. -/
def normStatus : ApiRes → ApiRes
  | ApiRes.ok st =>
    if st = some "ACTIVE" then ApiRes.ok st
    else if st = some "FAILED" then ApiRes.ok st
    else ApiRes.ok (some "CREATING")
  | ApiRes.exn m => ApiRes.exn m

theorem wa_creating_timeout (failMsg : String) (fetch : Nat → ApiRes)
    (hall : ∀ j, fetch j = ApiRes.ok (some "CREATING")) (mw : Nat) :
    ∀ n t k, mw - t ≤ n →
      wait_for_active failMsg fetch mw t k
        = WaitOutcome.timeout (k + (mw - t + 9) / 10) := by
  intro n
  induction n with
  | zero =>
    intro t k hle
    have h : ¬ t < mw := by omega
    rw [wa_stop _ _ _ _ _ h]
    have h0 : mw - t = 0 := by omega
    simp [h0]
  | succ n ih =>
    intro t k hle
    by_cases h : t < mw
    · rw [wa_ok failMsg fetch mw t k (some "CREATING") h (hall k)]
      simp only [Option.some.injEq]
      rw [if_neg (by decide), if_neg (by decide)]
      rw [ih (t + 10) (k + 1) (by omega)]
      congr 1
      omega
    · rw [wa_stop _ _ _ _ _ h]
      have h0 : mw - t = 0 := by omega
      simp [h0]

theorem wa_norm_eq (failMsg : String) (fetch : Nat → ApiRes) (mw : Nat) :
    ∀ n t k, mw - t ≤ n →
      wait_for_active failMsg (fun j => normStatus (fetch j)) mw t k
        = wait_for_active failMsg fetch mw t k := by
  intro n
  induction n with
  | zero =>
    intro t k hle
    have h : ¬ t < mw := by omega
    rw [wa_stop _ _ _ _ _ h, wa_stop _ _ _ _ _ h]
  | succ n ih =>
    intro t k hle
    by_cases h : t < mw
    · cases hf : fetch k with
      | ok st =>
        rw [wa_ok failMsg fetch mw t k st h hf]
        by_cases hA : st = some "ACTIVE"
        · rw [wa_ok failMsg _ mw t k st h (by simp [hf, normStatus, hA])]
          rw [if_pos hA, if_pos hA]
        · by_cases hF : st = some "FAILED"
          · rw [wa_ok failMsg _ mw t k st h (by simp [hf, normStatus, hA, hF])]
            rw [if_neg hA, if_neg hA, if_pos hF, if_pos hF]
            by_cases hn : notFoundIn failMsg
            · rw [if_pos hn, if_pos hn]
              exact ih (t + 5) (k + 1) (by omega)
            · rw [if_neg hn, if_neg hn]
          · rw [wa_ok failMsg _ mw t k (some "CREATING") h
              (by simp [hf, normStatus, hA, hF])]
            simp only [Option.some.injEq]
            rw [if_neg (by decide), if_neg (by decide),
              if_neg hA, if_neg hF]
            exact ih (t + 10) (k + 1) (by omega)
      | exn m =>
        rw [wa_exn failMsg fetch mw t k m h hf,
          wa_exn failMsg _ mw t k m h (by simp [hf, normStatus])]
        by_cases hn : notFoundIn m
        · rw [if_pos hn, if_pos hn]
          exact ih (t + 5) (k + 1) (by omega)
        · rw [if_neg hn, if_neg hn]
    · rw [wa_stop _ _ _ _ _ h, wa_stop _ _ _ _ _ h]

theorem wa_raised_not_notfound (failMsg : String) (fetch : Nat → ApiRes)
    (mw : Nat) :
    ∀ n t k m, mw - t ≤ n →
      wait_for_active failMsg fetch mw t k = WaitOutcome.raised m →
      notFoundIn m = false := by
  intro n
  induction n with
  | zero =>
    intro t k m hle hw
    have h : ¬ t < mw := by omega
    rw [wa_stop _ _ _ _ _ h] at hw
    exact absurd hw (by simp)
  | succ n ih =>
    intro t k m hle hw
    by_cases h : t < mw
    · cases hf : fetch k with
      | ok st =>
        rw [wa_ok failMsg fetch mw t k st h hf] at hw
        by_cases hA : st = some "ACTIVE"
        · rw [if_pos hA] at hw
          exact absurd hw (by simp)
        · rw [if_neg hA] at hw
          by_cases hF : st = some "FAILED"
          · rw [if_pos hF] at hw
            by_cases hn : notFoundIn failMsg
            · rw [if_pos hn] at hw
              exact ih (t + 5) (k + 1) m (by omega) hw
            · rw [if_neg hn] at hw
              cases hw
              simpa using hn
          · rw [if_neg hF] at hw
            exact ih (t + 10) (k + 1) m (by omega) hw
      | exn m0 =>
        rw [wa_exn failMsg fetch mw t k m0 h hf] at hw
        by_cases hn : notFoundIn m0
        · rw [if_pos hn] at hw
          exact ih (t + 5) (k + 1) m (by omega) hw
        · rw [if_neg hn] at hw
          cases hw
          simpa using hn
    · rw [wa_stop _ _ _ _ _ h] at hw
      exact absurd hw (by simp)

theorem wd_ok_mem (timeoutMsg : String) (fetch : Nat → ApiRes) (mw : Nat) :
    ∀ n t k, mw - t ≤ n →
      (wait_for_deleted timeoutMsg fetch mw t k).1 = Except.ok () →
      ∃ m, notFoundIn m = true ∧
        ApiRes.exn m ∈ (wait_for_deleted timeoutMsg fetch mw t k).2 := by
  intro n
  induction n with
  | zero =>
    intro t k hle hw
    have h : ¬ t < mw := by omega
    rw [wd_stop _ _ _ _ _ h] at hw
    exact absurd hw (by simp)
  | succ n ih =>
    intro t k hle hw
    by_cases h : t < mw
    · cases hf : fetch k with
      | ok st =>
        rw [wd_found timeoutMsg fetch mw t k st h hf] at hw ⊢
        obtain ⟨m, hm, hmem⟩ := ih (t + 10) (k + 1) (by omega) hw
        exact ⟨m, hm, by simp [hmem]⟩
      | exn m0 =>
        rw [wd_exn timeoutMsg fetch mw t k m0 h hf] at hw ⊢
        by_cases hn : notFoundIn m0
        · rw [if_pos hn]
          exact ⟨m0, hn, by simp⟩
        · rw [if_neg hn] at hw
          exact absurd hw (by simp)
    · rw [wd_stop _ _ _ _ _ h] at hw
      exact absurd hw (by simp)

theorem deleteTargetsRun_events (env : DelEnv) :
    ∀ ts e, e ∈ (deleteTargetsRun env ts).2 →
      (∃ tid, e = Ev.delTarget tid) ∨ ∃ tid r, e = Ev.getTarget tid r := by
  intro ts
  induction ts with
  | nil => intro e he; simp [deleteTargetsRun] at he
  | cons tid rest ih =>
    intro e he
    rw [deleteTargetsRun] at he
    cases hd : env.delTargetRes tid with
    | error m =>
      rw [hd] at he
      simp at he
      exact Or.inl ⟨tid, he⟩
    | ok _ =>
      rw [hd] at he
      cases hw : (wait_for_target_deleted tid (env.getTargetRes tid)).1 with
      | error m =>
        simp only [hw] at he
        simp at he
        rcases he with he | ⟨r, _, he⟩
        · exact Or.inl ⟨tid, he⟩
        · exact Or.inr ⟨tid, r, he.symm⟩
      | ok _ =>
        simp only [hw] at he
        simp at he
        rcases he with he | ⟨r, _, he⟩ | he
        · exact Or.inl ⟨tid, he⟩
        · exact Or.inr ⟨tid, r, he.symm⟩
        · exact ih e he

theorem deleteTargetsRun_no_delGateway (env : DelEnv) (ts : List String) :
    Ev.delGateway ∉ (deleteTargetsRun env ts).2 := by
  intro h
  rcases deleteTargetsRun_events env ts Ev.delGateway h with ⟨tid, he⟩ | ⟨tid, r, he⟩
  · exact absurd he (by simp)
  · exact absurd he (by simp)

theorem deleteTargetsRun_ok_trace (env : DelEnv) :
    ∀ ts, (deleteTargetsRun env ts).1 = Except.ok () →
      ∀ tid ∈ ts, ∃ p1 p2,
        (deleteTargetsRun env ts).2 = p1 ++ Ev.delTarget tid :: p2 ∧
        ∃ m, notFoundIn m = true ∧ Ev.getTarget tid (ApiRes.exn m) ∈ p2 := by
  intro ts
  induction ts with
  | nil => intro _ tid htid; simp at htid
  | cons t0 rest ih =>
    intro hok tid htid
    cases hd : env.delTargetRes t0 with
    | error m =>
      rw [deleteTargetsRun] at hok
      simp only [hd] at hok
      exact absurd hok (by simp)
    | ok u =>
      cases hw1 : (wait_for_target_deleted t0 (env.getTargetRes t0)).1 with
      | error m =>
        rw [deleteTargetsRun] at hok
        simp only [hd, hw1] at hok
        exact absurd hok (by simp)
      | ok v =>
        have hrest : (deleteTargetsRun env rest).1 = Except.ok () := by
          rw [deleteTargetsRun] at hok
          simp only [hd, hw1] at hok
          exact hok
        have htr : (deleteTargetsRun env (t0 :: rest)).2 =
            Ev.delTarget t0 ::
              ((wait_for_target_deleted t0 (env.getTargetRes t0)).2.map
                  (Ev.getTarget t0)
                ++ (deleteTargetsRun env rest).2) := by
          rw [deleteTargetsRun]
          simp only [hd, hw1]
        rcases List.mem_cons.mp htid with heq | hmem
        · subst heq
          refine ⟨[], (wait_for_target_deleted tid (env.getTargetRes tid)).2.map
              (Ev.getTarget tid) ++ (deleteTargetsRun env rest).2, by simp [htr], ?_⟩
          have hw1' : (wait_for_target_deleted tid (env.getTargetRes tid)).1
              = Except.ok () := by cases v; exact hw1
          obtain ⟨m, hm, hmemw⟩ :=
            wd_ok_mem (targetDeletedTimeoutMsg tid 300) (env.getTargetRes tid)
              300 300 0 0 (by omega) hw1'
          exact ⟨m, hm, List.mem_append_left _ (List.mem_map_of_mem _ hmemw)⟩
        · obtain ⟨q1, q2, heq, m, hm, hmemq⟩ := ih hrest tid hmem
          refine ⟨Ev.delTarget t0 ::
              ((wait_for_target_deleted t0 (env.getTargetRes t0)).2.map
                (Ev.getTarget t0) ++ q1), q2, ?_, m, hm, hmemq⟩
          rw [htr, heq]
          simp [List.append_assoc]

/-- C1: on every execution path of delete_gateway that issues the parent
gateway delete call, the target listing succeeded, the parent delete is
preceded by, for every target id of the listing, that target delete call
followed by a target get whose response the deletion wait classified as
ResourceNotFound (absence confirmed), and no parent delete occurs earlier
in the trace. -/
theorem delete_gateway_targets_before_parent (env : DelEnv)
    (h : Ev.delGateway ∈ (delete_gateway env).2) :
    ∃ ts pre post, env.listTargetsRes = Except.ok ts ∧
      (delete_gateway env).2 = Ev.listTargets :: (pre ++ Ev.delGateway :: post) ∧
      Ev.delGateway ∉ pre ∧
      ∀ tid ∈ ts, ∃ p1 p2, pre = p1 ++ Ev.delTarget tid :: p2 ∧
        ∃ m, notFoundIn m = true ∧ Ev.getTarget tid (ApiRes.exn m) ∈ p2 := by
  cases hl : env.listTargetsRes with
  | error m =>
    rw [delete_gateway] at h
    simp only [hl] at h
    simp at h
  | ok ts =>
    cases hr : (deleteTargetsRun env ts).1 with
    | error m =>
      rw [delete_gateway] at h
      simp only [hl, hr] at h
      simp at h
      exact absurd h (deleteTargetsRun_no_delGateway env ts)
    | ok u =>
      have hok : (deleteTargetsRun env ts).1 = Except.ok () := by
        cases u; exact hr
      have htr := deleteTargetsRun_ok_trace env ts hok
      cases hg : env.delGatewayRes with
      | error m =>
        refine ⟨ts, (deleteTargetsRun env ts).2, [], rfl, ?_,
          deleteTargetsRun_no_delGateway env ts, htr⟩
        rw [delete_gateway]
        simp only [hl, hr, hg]
      | ok v =>
        cases hwg : (wait_for_gateway_deleted env.gatewayId env.getGatewayRes).1 with
        | error m =>
          refine ⟨ts, (deleteTargetsRun env ts).2,
            (wait_for_gateway_deleted env.gatewayId env.getGatewayRes).2.map
              Ev.getGateway, rfl, ?_,
            deleteTargetsRun_no_delGateway env ts, htr⟩
          rw [delete_gateway]
          simp only [hl, hr, hg, hwg]
        | ok w =>
          refine ⟨ts, (deleteTargetsRun env ts).2,
            (wait_for_gateway_deleted env.gatewayId env.getGatewayRes).2.map
              Ev.getGateway, rfl, ?_,
            deleteTargetsRun_no_delGateway env ts, htr⟩
          rw [delete_gateway]
          simp only [hl, hr, hg, hwg]

/-- A concrete delete_gateway environment with one target whose second get
reports not found, exercising the full successful deletion sequence. -/
def c1Env : DelEnv :=
  { gatewayId := "gw-1"
    listTargetsRes := Except.ok ["tgt-1"]
    delTargetRes := fun _ => Except.ok ()
    getTargetRes := fun _ k =>
      if k = 0 then ApiRes.ok (some "DELETING")
      else ApiRes.exn "ResourceNotFoundException"
    delGatewayRes := Except.ok ()
    getGatewayRes := fun _ => ApiRes.exn "ResourceNotFoundException" }

theorem c1Env_wait_target :
    wait_for_target_deleted "tgt-1"
      (fun k => if k = 0 then ApiRes.ok (some "DELETING")
        else ApiRes.exn "ResourceNotFoundException") =
      (Except.ok (), [ApiRes.ok (some "DELETING"),
        ApiRes.exn "ResourceNotFoundException"]) := by
  have hnf : notFoundIn "ResourceNotFoundException" = true := by decide
  unfold wait_for_target_deleted
  rw [wd_found _ _ 300 0 0 (some "DELETING") (by omega) rfl]
  rw [wd_exn _ _ 300 10 1 "ResourceNotFoundException" (by omega) rfl]
  simp [hnf]

theorem c1Env_wait_gateway :
    wait_for_gateway_deleted "gw-1"
      (fun _ => ApiRes.exn "ResourceNotFoundException") =
      (Except.ok (), [ApiRes.exn "ResourceNotFoundException"]) := by
  have hnf : notFoundIn "ResourceNotFoundException" = true := by decide
  unfold wait_for_gateway_deleted
  rw [wd_exn _ _ 300 0 0 "ResourceNotFoundException" (by omega) rfl]
  simp [hnf]

theorem c1Env_trace :
    (delete_gateway c1Env).2 =
      [Ev.listTargets, Ev.delTarget "tgt-1",
        Ev.getTarget "tgt-1" (ApiRes.ok (some "DELETING")),
        Ev.getTarget "tgt-1" (ApiRes.exn "ResourceNotFoundException"),
        Ev.delGateway, Ev.getGateway (ApiRes.exn "ResourceNotFoundException")] := by
  rw [delete_gateway]
  simp [deleteTargetsRun, c1Env, c1Env_wait_target, c1Env_wait_gateway]

/-- C1 witness: the ordering theorem instantiated at the concrete
environment c1Env, whose trace does issue the parent delete. -/
theorem delete_gateway_targets_before_parent_witness :
    ∃ ts pre post, c1Env.listTargetsRes = Except.ok ts ∧
      (delete_gateway c1Env).2 = Ev.listTargets :: (pre ++ Ev.delGateway :: post) ∧
      Ev.delGateway ∉ pre ∧
      ∀ tid ∈ ts, ∃ p1 p2, pre = p1 ++ Ev.delTarget tid :: p2 ∧
        ∃ m, notFoundIn m = true ∧ Ev.getTarget tid (ApiRes.exn m) ∈ p2 :=
  delete_gateway_targets_before_parent c1Env (by rw [c1Env_trace]; simp)

/-- An environment in which the gateway is already absent from the control
plane: every read and every mutating call raises a not-found exception,
exactly what a control plane reports for a deleted resource. -/
def c2AbsentEnv : DelEnv :=
  { gatewayId := "gw-gone"
    listTargetsRes :=
      Except.error "ResourceNotFoundException: gateway gw-gone is not found"
    delTargetRes := fun _ => Except.error "ResourceNotFoundException"
    getTargetRes := fun _ _ => ApiRes.exn "ResourceNotFoundException"
    delGatewayRes := Except.error "ResourceNotFoundException"
    getGatewayRes := fun _ => ApiRes.exn "ResourceNotFoundException" }

/-- C2 counterexample: for a gateway absent from the control plane (every
read of it, and every other call on it, reports not found) delete_gateway
does not return success: the not-found exception of the initial
list_gateway_targets call reaches the catch-all clause of delete_gateway,
which only logs and re-raises.  The not-found-as-success treatment exists
solely inside the post-delete waits. -/
theorem delete_gateway_absent_raises :
    (delete_gateway c2AbsentEnv).1 =
      Except.error "ResourceNotFoundException: gateway gw-gone is not found" ∧
    c2AbsentEnv.getGatewayRes 0 = ApiRes.exn "ResourceNotFoundException" ∧
    c2AbsentEnv.getTargetRes "t" 0 = ApiRes.exn "ResourceNotFoundException" ∧
    notFoundIn "ResourceNotFoundException: gateway gw-gone is not found" = true :=
  ⟨rfl, rfl, rfl, by decide⟩

/-- C2 amended: deleting an already-absent gateway returns success only
when the list-targets call and the gateway delete call themselves succeed
against the absent id; then the deletion wait classifies the first
not-found read as success and delete_gateway returns the deleted status. -/
theorem delete_gateway_absent_idempotent (env : DelEnv) (m : String)
    (hl : env.listTargetsRes = Except.ok [])
    (hd : env.delGatewayRes = Except.ok ())
    (hg : env.getGatewayRes 0 = ApiRes.exn m)
    (hm : notFoundIn m = true) :
    (delete_gateway env).1 = Except.ok "deleted" := by
  have hw : wait_for_gateway_deleted env.gatewayId env.getGatewayRes =
      (Except.ok (), [ApiRes.exn m]) := by
    unfold wait_for_gateway_deleted
    rw [wd_exn _ _ 300 0 0 m (by omega) hg]
    simp [hm]
  rw [delete_gateway]
  simp [hl, deleteTargetsRun, hd, hw]

/-- An environment in which the absent gateway answers the list and delete
calls successfully and reports not found on every read. -/
def c2OkEnv : DelEnv :=
  { gatewayId := "gw-gone"
    listTargetsRes := Except.ok []
    delTargetRes := fun _ => Except.ok ()
    getTargetRes := fun _ _ => ApiRes.exn "ResourceNotFoundException"
    delGatewayRes := Except.ok ()
    getGatewayRes := fun _ => ApiRes.exn "ResourceNotFoundException" }

/-- C2 witness for the amended statement, at the concrete environment. -/
theorem delete_gateway_absent_idempotent_witness :
    (delete_gateway c2OkEnv).1 = Except.ok "deleted" :=
  delete_gateway_absent_idempotent c2OkEnv "ResourceNotFoundException"
    rfl rfl rfl (by decide)

theorem wa_success_active (failMsg : String) (fetch : Nat → ApiRes) (mw : Nat) :
    ∀ n t k p, mw - t ≤ n →
      wait_for_active failMsg fetch mw t k = WaitOutcome.success p →
      ∃ j, fetch j = ApiRes.ok (some "ACTIVE") := by
  intro n
  induction n with
  | zero =>
    intro t k p hle hw
    have h : ¬ t < mw := by omega
    rw [wa_stop _ _ _ _ _ h] at hw
    exact absurd hw (by simp)
  | succ n ih =>
    intro t k p hle hw
    by_cases h : t < mw
    · cases hf : fetch k with
      | ok st =>
        rw [wa_ok failMsg fetch mw t k st h hf] at hw
        by_cases hA : st = some "ACTIVE"
        · exact ⟨k, hA ▸ hf⟩
        · rw [if_neg hA] at hw
          by_cases hF : st = some "FAILED"
          · rw [if_pos hF] at hw
            by_cases hn : notFoundIn failMsg
            · rw [if_pos hn] at hw
              exact ih (t + 5) (k + 1) p (by omega) hw
            · rw [if_neg hn] at hw
              exact absurd hw (by simp)
          · rw [if_neg hF] at hw
            exact ih (t + 10) (k + 1) p (by omega) hw
      | exn m0 =>
        rw [wa_exn failMsg fetch mw t k m0 h hf] at hw
        by_cases hn : notFoundIn m0
        · rw [if_pos hn] at hw
          exact ih (t + 5) (k + 1) p (by omega) hw
        · rw [if_neg hn] at hw
          exact absurd hw (by simp)
    · rw [wa_stop _ _ _ _ _ h] at hw
      exact absurd hw (by simp)

/-- C3: when the activation wait of create_gateway returns successfully
(the polled status reached ACTIVE within the 300 second budget),
create_gateway returns normally; the wait did observe an ACTIVE status
response; the returned handle carries the id, arn and url of the create
response and the success marker created in its status field, which is
produced on no other path; and the authorizer configuration of the request
actually sent embeds the supplied user pool id in the derived issuer and
the supplied client id as the singleton audience, both verbatim. -/
theorem create_gateway_active_ok (env : CreateEnv) (config : GatewayConfig)
    (acct : String) (resp : CreateGatewayResponse) (n : Nat)
    (ha : env.accountIdRes = Except.ok acct)
    (hc : env.createRes (buildCreateGatewayRequest config acct) = Except.ok resp)
    (hw : wait_for_gateway_active resp.gatewayId env.getGatewayRes
      = WaitOutcome.success n) :
    create_gateway env config =
      Except.ok { gateway_id := resp.gatewayId, gateway_arn := resp.gatewayArn
                  gateway_url := resp.gatewayUrl, status := "created" } ∧
    (∃ j, env.getGatewayRes j = ApiRes.ok (some "ACTIVE")) ∧
    (buildCreateGatewayRequest config acct).customJwt.issuer =
      "https://cognito-idp." ++ config.region ++ ".amazonaws.com/"
        ++ config.cognito_user_pool_id ∧
    (buildCreateGatewayRequest config acct).customJwt.audience =
      [config.cognito_client_id] := by
  refine ⟨?_, ?_, rfl, rfl⟩
  · rw [create_gateway]
    simp only [ha, hc, hw]
  · exact wa_success_active (gatewayActivateFailMsg resp.gatewayId)
      env.getGatewayRes 300 300 0 0 n (by omega) hw

/-- The configuration used by the concrete create_gateway environments. -/
def demoConfig : GatewayConfig :=
  { gateway_name := "mcp-demo-gateway"
    description := "demo"
    cognito_user_pool_id := "us-west-2_POOL"
    cognito_client_id := "client-123"
    cognito_domain := "demo-domain"
    lambda_function_arn := "arn:aws:lambda:fn"
    region := "us-west-2" }

/-- A create environment whose first status poll already reports ACTIVE. -/
def c3Env : CreateEnv :=
  { accountIdRes := Except.ok "111122223333"
    createRes := fun _ =>
      Except.ok { gatewayId := "gw-abc", gatewayArn := "arn:gw", gatewayUrl := none }
    getGatewayRes := fun _ => ApiRes.ok (some "ACTIVE") }

theorem c3Env_wait :
    wait_for_gateway_active "gw-abc" (fun _ => ApiRes.ok (some "ACTIVE")) =
      WaitOutcome.success 1 := by
  unfold wait_for_gateway_active
  rw [wa_ok _ _ 300 0 0 (some "ACTIVE") (by omega) rfl]
  rw [if_pos rfl]

/-- C3 witness: the theorem instantiated at the concrete environment. -/
theorem create_gateway_active_ok_witness :
    create_gateway c3Env demoConfig =
      Except.ok { gateway_id := "gw-abc", gateway_arn := "arn:gw"
                  gateway_url := none, status := "created" } ∧
    (∃ j, c3Env.getGatewayRes j = ApiRes.ok (some "ACTIVE")) ∧
    (buildCreateGatewayRequest demoConfig "111122223333").customJwt.issuer =
      "https://cognito-idp." ++ demoConfig.region ++ ".amazonaws.com/"
        ++ demoConfig.cognito_user_pool_id ∧
    (buildCreateGatewayRequest demoConfig "111122223333").customJwt.audience =
      [demoConfig.cognito_client_id] :=
  create_gateway_active_ok c3Env demoConfig "111122223333"
    { gatewayId := "gw-abc", gatewayArn := "arn:gw", gatewayUrl := none } 1
    rfl rfl c3Env_wait

/-- C5: when every status poll of the activation wait reports CREATING,
create_gateway raises the TimeoutError of the wait once the default 300
second budget is exhausted, and the wait performs exactly 30 status polls,
which is ceil of max_wait over the 10 second poll interval. -/
theorem create_gateway_creating_times_out (env : CreateEnv)
    (config : GatewayConfig) (acct : String) (resp : CreateGatewayResponse)
    (ha : env.accountIdRes = Except.ok acct)
    (hc : env.createRes (buildCreateGatewayRequest config acct) = Except.ok resp)
    (hall : ∀ j, env.getGatewayRes j = ApiRes.ok (some "CREATING")) :
    wait_for_gateway_active resp.gatewayId env.getGatewayRes =
      WaitOutcome.timeout 30 ∧
    create_gateway env config =
      Except.error (gatewayActiveTimeoutMsg resp.gatewayId 300) ∧
    30 = (300 + 10 - 1) / 10 := by
  have hw : wait_for_gateway_active resp.gatewayId env.getGatewayRes =
      WaitOutcome.timeout 30 := by
    unfold wait_for_gateway_active
    rw [wa_creating_timeout _ _ hall 300 300 0 0 (by omega)]
  refine ⟨hw, ?_, by norm_num⟩
  rw [create_gateway]
  simp only [ha, hc, hw]

/-- A create environment whose status polls report CREATING forever. -/
def c5Env : CreateEnv :=
  { accountIdRes := Except.ok "111122223333"
    createRes := fun _ =>
      Except.ok { gatewayId := "gw-abc", gatewayArn := "arn:gw", gatewayUrl := none }
    getGatewayRes := fun _ => ApiRes.ok (some "CREATING") }

/-- C5 witness: the theorem instantiated at the concrete environment. -/
theorem create_gateway_creating_times_out_witness :
    wait_for_gateway_active "gw-abc" c5Env.getGatewayRes =
      WaitOutcome.timeout 30 ∧
    create_gateway c5Env demoConfig =
      Except.error (gatewayActiveTimeoutMsg "gw-abc" 300) ∧
    30 = (300 + 10 - 1) / 10 :=
  create_gateway_creating_times_out c5Env demoConfig "111122223333"
    { gatewayId := "gw-abc", gatewayArn := "arn:gw", gatewayUrl := none }
    rfl rfl (fun _ => rfl)

/-- C7: in every activation wait (wait_for_gateway_active and
wait_for_target_active both instantiate wait_for_active, differing only in
failMsg), a fetch whose exception the code classifies as not found
(message holding ResourceNotFound) is transient: while budget remains the
wait just sleeps 5 seconds and refetches, treating the response as neither
success nor failure; and no message so classified is ever surfaced: any
exception the wait propagates is one the classification rejected. -/
theorem wait_active_not_found_transient (failMsg : String)
    (fetch : Nat → ApiRes) (mw t k : Nat) (m : String) :
    (t < mw → fetch k = ApiRes.exn m → notFoundIn m = true →
      wait_for_active failMsg fetch mw t k =
        wait_for_active failMsg fetch mw (t + 5) (k + 1)) ∧
    (∀ m2, wait_for_active failMsg fetch mw t k = WaitOutcome.raised m2 →
      notFoundIn m2 = false) := by
  constructor
  · intro h hf hm
    rw [wa_exn failMsg fetch mw t k m h hf, if_pos hm]
  · intro m2 hw
    exact wa_raised_not_notfound failMsg fetch mw (mw - t) t k m2 le_rfl hw

/-- C7 witness: the transient step at a concrete not-found response. -/
theorem wait_active_not_found_transient_witness :
    wait_for_active (gatewayActivateFailMsg "gw-abc")
      (fun _ => ApiRes.exn "ResourceNotFoundException") 300 0 0 =
    wait_for_active (gatewayActivateFailMsg "gw-abc")
      (fun _ => ApiRes.exn "ResourceNotFoundException") 300 5 1 :=
  (wait_active_not_found_transient (gatewayActivateFailMsg "gw-abc")
    (fun _ => ApiRes.exn "ResourceNotFoundException") 300 0 0
    "ResourceNotFoundException").1 (by omega) rfl (by decide)

/-- C10: an activation wait treats every fetched status other than ACTIVE
and FAILED, including an absent status field, exactly like CREATING:
replacing all such responses by status CREATING leaves the outcome of the
wait unchanged; and when every response carries such a status, the wait
can only end in the timeout outcome. -/
theorem wait_active_nonterminal_like_creating (failMsg : String)
    (fetch : Nat → ApiRes) (mw t k : Nat) :
    wait_for_active failMsg (fun j => normStatus (fetch j)) mw t k =
      wait_for_active failMsg fetch mw t k ∧
    ((∀ j, ∃ s, fetch j = ApiRes.ok s ∧ s ≠ some "ACTIVE" ∧ s ≠ some "FAILED") →
      ∃ p, wait_for_active failMsg fetch mw t k = WaitOutcome.timeout p) := by
  constructor
  · exact wa_norm_eq failMsg fetch mw (mw - t) t k le_rfl
  · intro hall
    have hnorm : ∀ j, (fun j => normStatus (fetch j)) j
        = ApiRes.ok (some "CREATING") := by
      intro j
      obtain ⟨s, hs, hA, hF⟩ := hall j
      simp [hs, normStatus, hA, hF]
    refine ⟨k + (mw - t + 9) / 10, ?_⟩
    rw [← wa_norm_eq failMsg fetch mw (mw - t) t k le_rfl]
    exact wa_creating_timeout failMsg _ hnorm mw (mw - t) t k le_rfl

/-- C10 witness: with every poll returning a response whose status field
is absent, the wait ends in timeout. -/
theorem wait_active_nonterminal_witness :
    ∃ p, wait_for_active (gatewayActivateFailMsg "gw-abc")
      (fun _ => ApiRes.ok none) 300 0 0 = WaitOutcome.timeout p :=
  (wait_active_nonterminal_like_creating (gatewayActivateFailMsg "gw-abc")
    (fun _ => ApiRes.ok none) 300 0 0).2
    (fun _ => ⟨none, rfl, by simp, by simp⟩)

theorem cgr_status (deleteRes : String → Except String Unit)
    (confirm : String → Bool) (force : Bool) (gw : GatewaySummary) :
    ∀ r ∈ cleanupGatewayRecord deleteRes confirm force gw,
      r.status = "deleted" ∨ r.status = "error" := by
  intro r hr
  simp only [cleanupGatewayRecord] at hr
  by_cases hm : isOurGateway (gw.gatewayName.getD "Unknown")
  · rw [if_pos hm] at hr
    by_cases hc : (force || confirm gw.gatewayId) = true
    · rw [if_pos hc] at hr
      cases hd : deleteRes gw.gatewayId with
      | ok u =>
        rw [hd] at hr
        simp at hr
        subst hr
        exact Or.inl rfl
      | error m =>
        rw [hd] at hr
        simp at hr
        subst hr
        exact Or.inr rfl
    · rw [if_neg hc] at hr
      simp at hr
  · rw [if_neg hm] at hr
    simp at hr

/-- C8: every record of the gateway sweep has status deleted or error
(also the sweep-level listing-failure record); a gateway failing the name
heuristic contributes no record at all, and so does one whose interactive
confirmation is declined while the force flag is unset; in particular no
record with status skipped is ever emitted. -/
theorem cleanup_gateways_status_invariant
    (listRes : Except String (List GatewaySummary))
    (deleteRes : String → Except String Unit) (confirm : String → Bool)
    (force : Bool) :
    (∀ r ∈ cleanup_gateways listRes deleteRes confirm force,
      r.status = "deleted" ∨ r.status = "error") ∧
    (∀ gw : GatewaySummary,
      isOurGateway (gw.gatewayName.getD "Unknown") = false →
      cleanupGatewayRecord deleteRes confirm force gw = []) ∧
    (∀ gw : GatewaySummary, force = false → confirm gw.gatewayId = false →
      cleanupGatewayRecord deleteRes confirm force gw = []) := by
  refine ⟨?_, ?_, ?_⟩
  · intro r hr
    cases hl : listRes with
    | error m =>
      rw [hl] at hr
      simp [cleanup_gateways] at hr
      subst hr
      exact Or.inr rfl
    | ok gws =>
      rw [hl] at hr
      simp [cleanup_gateways] at hr
      obtain ⟨gw, _, hr2⟩ := hr
      exact cgr_status deleteRes confirm force gw r hr2
  · intro gw hm
    simp [cleanupGatewayRecord, hm]
  · intro gw hforce hconf
    subst hforce
    simp [cleanupGatewayRecord, hconf]

/-- C8 witness: the invariant applied to the record produced by a failing
gateway listing. -/
theorem cleanup_gateways_status_invariant_witness :
    ({ gateway_id := none, gateway_name := none, status := "error"
       error := some ("Failed to list gateways: " ++ "boom") } : CleanupRecord).status
        = "deleted" ∨
    ({ gateway_id := none, gateway_name := none, status := "error"
       error := some ("Failed to list gateways: " ++ "boom") } : CleanupRecord).status
        = "error" :=
  (cleanup_gateways_status_invariant (Except.error "boom")
    (fun _ => Except.ok ()) (fun _ => false) false).1 _
    (by simp [cleanup_gateways])


example : strContains (strLower "mcp-bucket") "mcp" = true := by decide
example : isOurGateway "mcp-demo-gateway" = true := by decide
example : isOurGateway "Unknown" = false := by decide

theorem cb_names_rec (env : S3Env) (b : String) :
    ∀ r ∈ (cleanupBucket env b).1, r.bucket_name = some b := by
  intro r hr
  simp only [cleanupBucket] at hr
  by_cases hs : s3BucketSelected env b
  · rw [if_pos hs] at hr
    cases hl : env.listObjectsRes b with
    | error m =>
      simp only [hl] at hr
      by_cases hn : strContains m "NoSuchBucket" = true
      · rw [if_pos hn] at hr
        simp at hr
      · rw [if_neg hn] at hr
        simp at hr
        subst hr
        rfl
    | ok keys =>
      simp only [hl] at hr
      by_cases he : keys.isEmpty = true
      · rw [if_pos he] at hr
        simp at hr
      · rw [if_neg he] at hr
        cases hd : env.deleteObjectsRes b keys with
        | ok u =>
          simp only [hd] at hr
          simp at hr
          subst hr
          rfl
        | error m =>
          simp only [hd] at hr
          by_cases hn : strContains m "NoSuchBucket" = true
          · rw [if_pos hn] at hr
            simp at hr
          · rw [if_neg hn] at hr
            simp at hr
            subst hr
            rfl
  · rw [if_neg hs] at hr
    simp at hr

theorem cb_names_call (env : S3Env) (b : String) :
    ∀ c ∈ (cleanupBucket env b).2, c.1 = b := by
  intro c hc
  simp only [cleanupBucket] at hc
  by_cases hs : s3BucketSelected env b
  · rw [if_pos hs] at hc
    cases hl : env.listObjectsRes b with
    | error m =>
      simp only [hl] at hc
      by_cases hn : strContains m "NoSuchBucket" = true
      · rw [if_pos hn] at hc
        simp at hc
      · rw [if_neg hn] at hc
        simp at hc
    | ok keys =>
      simp only [hl] at hc
      by_cases he : keys.isEmpty = true
      · rw [if_pos he] at hc
        simp at hc
      · rw [if_neg he] at hc
        cases hd : env.deleteObjectsRes b keys with
        | ok u =>
          simp only [hd] at hc
          simp at hc
          subst hc
          rfl
        | error m =>
          simp only [hd] at hc
          by_cases hn : strContains m "NoSuchBucket" = true
          · rw [if_pos hn] at hc
            simp at hc
            subst hc
            rfl
          · rw [if_neg hn] at hc
            simp at hc
            subst hc
            rfl
  · rw [if_neg hs] at hc
    simp at hc

theorem cb_empty (env : S3Env) (b : String)
    (hsel : s3BucketSelected env b = true)
    (hempty : env.listObjectsRes b = Except.ok []) :
    cleanupBucket env b = ([], []) := by
  simp [cleanupBucket, hsel, hempty]

/-- C9: a bucket selected by the sweep heuristic whose listing under the
mcp-data prefix returns no objects contributes no batch delete call and
no outcome record of any status: neither appears anywhere in the result
of cleanup_s3_data, since every record and every delete call contributed
by a bucket carries that bucket name, and the empty-listing bucket
contributes nothing. -/
theorem cleanup_s3_empty_no_action (env : S3Env) (bs : List String) (b : String)
    (hbs : env.listBucketsRes = Except.ok bs)
    (hsel : s3BucketSelected env b = true)
    (hempty : env.listObjectsRes b = Except.ok []) :
    cleanupBucket env b = ([], []) ∧
    (∀ r ∈ (cleanup_s3_data env).1, r.bucket_name ≠ some b) ∧
    (∀ c ∈ (cleanup_s3_data env).2, c.1 ≠ b) := by
  refine ⟨cb_empty env b hsel hempty, ?_, ?_⟩
  · intro r hr heq
    simp only [cleanup_s3_data, hbs] at hr
    simp at hr
    obtain ⟨b2, _, hr2⟩ := hr
    have hname := cb_names_rec env b2 r hr2
    rw [heq] at hname
    have hb2 : b2 = b := (Option.some_inj.mp hname).symm
    rw [hb2] at hr2
    rw [cb_empty env b hsel hempty] at hr2
    simp at hr2
  · intro c hc heq
    simp only [cleanup_s3_data, hbs] at hc
    simp at hc
    obtain ⟨b2, _, hc2⟩ := hc
    have hname := cb_names_call env b2 c hc2
    rw [heq] at hname
    rw [hname.symm] at hc2
    rw [cb_empty env b hsel hempty] at hc2
    simp at hc2

/-- An object-store environment with one selected bucket that has no
objects under the data prefix. -/
def c9Env : S3Env :=
  { listBucketsRes := Except.ok ["mcp-bucket"]
    probeRes := fun _ => Except.ok 0
    listObjectsRes := fun _ => Except.ok []
    deleteObjectsRes := fun _ _ => Except.ok () }

/-- C9 witness: the theorem instantiated at the concrete environment. -/
theorem cleanup_s3_empty_no_action_witness :
    cleanupBucket c9Env "mcp-bucket" = ([], []) ∧
    (∀ r ∈ (cleanup_s3_data c9Env).1, r.bucket_name ≠ some "mcp-bucket") ∧
    (∀ c ∈ (cleanup_s3_data c9Env).2, c.1 ≠ "mcp-bucket") :=
  cleanup_s3_empty_no_action c9Env ["mcp-bucket"] "mcp-bucket"
    rfl (by decide) rfl

/-- Whether the full gateway deletion sequence for the given id fails. -/
def delFails (deleteRes : String → Except String Unit) (gid : String) : Bool :=
  match deleteRes gid with
  | Except.ok _ => false
  | Except.error _ => true

theorem cleanup_gateways_counts (deleteRes : String → Except String Unit)
    (confirm : String → Bool) :
    ∀ gws : List GatewaySummary,
    ((gws.flatMap (cleanupGatewayRecord deleteRes confirm true)).length =
      (gws.filter fun g => isOurGateway (g.gatewayName.getD "Unknown")).length) ∧
    (((gws.flatMap (cleanupGatewayRecord deleteRes confirm true)).filter
        fun r => r.status = "error").length =
      ((gws.filter fun g => isOurGateway (g.gatewayName.getD "Unknown")).filter
        fun g => delFails deleteRes g.gatewayId).length) ∧
    (((gws.flatMap (cleanupGatewayRecord deleteRes confirm true)).filter
        fun r => r.status = "deleted").length =
      ((gws.filter fun g => isOurGateway (g.gatewayName.getD "Unknown")).filter
        fun g => !delFails deleteRes g.gatewayId).length) := by
  intro gws
  induction gws with
  | nil => simp
  | cons g gs ih =>
    obtain ⟨ih1, ih2, ih3⟩ := ih
    by_cases hm : isOurGateway (g.gatewayName.getD "Unknown") = true
    · cases hd : deleteRes g.gatewayId with
      | ok u =>
        have hrec : cleanupGatewayRecord deleteRes confirm true g =
            [{ gateway_id := some g.gatewayId
               gateway_name := some (g.gatewayName.getD "Unknown")
               status := "deleted", error := none }] := by
          simp [cleanupGatewayRecord, hm, hd]
        have hdf : delFails deleteRes g.gatewayId = false := by
          simp [delFails, hd]
        refine ⟨?_, ?_, ?_⟩ <;>
          simp [List.filter_cons, hrec, hm, hdf, ih1, ih2, ih3]
      | error m =>
        have hrec : cleanupGatewayRecord deleteRes confirm true g =
            [{ gateway_id := some g.gatewayId
               gateway_name := some (g.gatewayName.getD "Unknown")
               status := "error"
               error := some ("Failed to delete gateway " ++ g.gatewayId
                 ++ ": " ++ m) }] := by
          simp [cleanupGatewayRecord, hm, hd]
        have hdf : delFails deleteRes g.gatewayId = true := by
          simp [delFails, hd]
        refine ⟨?_, ?_, ?_⟩ <;>
          simp [List.filter_cons, hrec, hm, hdf, ih1, ih2, ih3]
    · have hrec : cleanupGatewayRecord deleteRes confirm true g = [] := by
        simp [cleanupGatewayRecord]
        intro h
        exact absurd h hm
      have hm2 : isOurGateway (g.gatewayName.getD "Unknown") = false := by
        simpa using hm
      refine ⟨?_, ?_, ?_⟩ <;>
        simp [List.filter_cons, hrec, hm2, ih1, ih2, ih3]

/-- C6: a cleanup sweep with the force flag set, over a gateway listing
whose candidates are the gateways matching the name heuristic, produces
exactly one outcome record per candidate: the records with status error
are in bijection with the candidates whose deletion fails and the records
with status deleted with the candidates whose deletion succeeds, so with
N candidates and K failures there are exactly N records, K error and
N minus K deleted.  The sweep is modelled as a total function into the
record list because the source catches every per-gateway exception inside
the loop and a listing failure in the outer handler, recording each, so
cleanup_gateways itself never raises. -/
theorem cleanup_gateways_report (listRes : Except String (List GatewaySummary))
    (deleteRes : String → Except String Unit) (confirm : String → Bool)
    (gws : List GatewaySummary) (h : listRes = Except.ok gws) :
    ((cleanup_gateways listRes deleteRes confirm true).length =
      (gws.filter fun g => isOurGateway (g.gatewayName.getD "Unknown")).length) ∧
    (((cleanup_gateways listRes deleteRes confirm true).filter
        fun r => r.status = "error").length =
      ((gws.filter fun g => isOurGateway (g.gatewayName.getD "Unknown")).filter
        fun g => delFails deleteRes g.gatewayId).length) ∧
    (((cleanup_gateways listRes deleteRes confirm true).filter
        fun r => r.status = "deleted").length =
      ((gws.filter fun g => isOurGateway (g.gatewayName.getD "Unknown")).filter
        fun g => !delFails deleteRes g.gatewayId).length) := by
  subst h
  have hc := cleanup_gateways_counts deleteRes confirm gws
  simpa [cleanup_gateways] using hc

/-- The gateway listing of the C6 witness: two candidates, one stranger. -/
def c6List : List GatewaySummary :=
  [{ gatewayId := "gw-1", gatewayName := some "mcp-alpha" },
   { gatewayId := "gw-2", gatewayName := some "mcp-beta" },
   { gatewayId := "gw-3", gatewayName := some "other" }]

/-- The per-gateway deletion outcomes of the C6 witness: gw-2 fails. -/
def c6Delete (gid : String) : Except String Unit :=
  if gid = "gw-2" then Except.error "boom" else Except.ok ()

/-- C6 witness: the report theorem instantiated at a concrete sweep with
three listed gateways, two candidates and one failing deletion. -/
theorem cleanup_gateways_report_witness :
    ((cleanup_gateways (Except.ok c6List) c6Delete (fun _ => false) true).length =
      (c6List.filter fun g => isOurGateway (g.gatewayName.getD "Unknown")).length) ∧
    (((cleanup_gateways (Except.ok c6List) c6Delete (fun _ => false) true).filter
        fun r => r.status = "error").length =
      ((c6List.filter fun g => isOurGateway (g.gatewayName.getD "Unknown")).filter
        fun g => delFails c6Delete g.gatewayId).length) ∧
    (((cleanup_gateways (Except.ok c6List) c6Delete (fun _ => false) true).filter
        fun r => r.status = "deleted").length =
      ((c6List.filter fun g => isOurGateway (g.gatewayName.getD "Unknown")).filter
        fun g => !delFails c6Delete g.gatewayId).length) :=
  cleanup_gateways_report (Except.ok c6List) c6Delete (fun _ => false) c6List rfl
